import Mathlib

/-!
# Accessibility stub (`electron/native/accessibility-stub.cpp`)

A shallow embedding of the non-macOS accessibility add-on and of the small part of the
node-addon-api surface it uses.

* JavaScript values are first-order data (`Napi.Value`); an object is its extensibility
  flag and its list of own properties in insertion order, each a data property (value,
  writable flag) or an accessor property (getter, setter).
* Native code runs in `Napi.M σ`: explicit state passing over an arbitrary host state `σ`
  together with a value-or-error result (`Except Napi.Error`), in a host (`Napi.Host σ`)
  that says what the setters of accessor properties do.
* `Napi::Object::Set` is the JavaScript property store: it replaces a writable data
  property, adds a property to an extensible object, runs the setter of an accessor
  property, and otherwise stores nothing, silently.
* A function value created by `Napi::Function::New` records which native callback it
  wraps (`Napi.NativeFn`); `Accessibility.invoke` runs the wrapped callback.
-/

namespace Napi

/-- The environment handle (`Napi::Env`) that every node-addon-api constructor takes. -/
structure Env where
  id : Nat
  deriving DecidableEq, Repr

/-- The native callbacks of the add-on that `Napi::Function::New` can wrap. -/
inductive NativeFn where
  | CheckAccessibilityPermission
  | RequestAccessibilityPermission
  | SimulateKeyPress
  | GetActiveAppInfo
  deriving DecidableEq, Repr

/-- An own property of an object: a data property with its value and `writable`
attribute, or an accessor property with its getter and setter (host functions, named by
number; `none` when undefined). -/
inductive Property (α : Type) where
  | data (value : α) (writable : Bool)
  | accessor (getter : Option Nat) (setter : Option Nat)

/-- An object over values `α`: whether properties can still be added to it, and its own
properties in insertion order. -/
structure ObjectOf (α : Type) where
  extensible : Bool
  props : List (String × Property α)

/-- JavaScript values (`Napi::Value`). A number is given by its integral value, the only
kind of number the add-on builds; `host` stands for any value the add-on never builds
itself (closures, symbols, ...). -/
inductive Value where
  | undefined
  | null
  | boolean (b : Bool)
  | number (n : Int)
  | string (s : String)
  | object (o : ObjectOf Value)
  | function (fn : NativeFn)
  | host (id : Nat)

/-- A JavaScript object (`Napi::Object`). -/
abbrev Object := ObjectOf Value

/-- The error channel of a native call (a pending JavaScript exception). -/
inductive Error where
  | jsException (message : String)

/-- The host runtime, as far as a property store can reach it: what calling setter
`setter` on receiver `o` with the stored value does from a host state: it raises or
returns, and leaves the receiver and the host state as it pleases. -/
structure Host (σ : Type) where
  callSetter : (setter : Nat) → (o : Object) → (v : Value) → σ → Except Error Object × σ

/-- A host whose setters return without touching anything. -/
def Host.idle {σ : Type} : Host σ :=
  ⟨fun _ o _ s => (Except.ok o, s)⟩

/-- A host whose setters all raise. -/
def Host.raising {σ : Type} : Host σ :=
  ⟨fun _ _ _ s => (Except.error (Error.jsException "setter"), s)⟩

/-- Native code: explicit state passing over the host state `σ`, with a value-or-error
result, run in a host. -/
abbrev M (σ : Type) := ReaderT (Host σ) (ExceptT Error (StateM σ))

/-- Runs a native computation in `host` from host state `s`: its result and the host
state after. -/
def M.exec {σ α : Type} (m : M σ α) (host : Host σ) (s : σ) : Except Error α × σ :=
  (ExceptT.run (ReaderT.run m host)).run s

/-- The argument record of a native callback (`Napi::CallbackInfo`). -/
structure CallbackInfo where
  env : Env
  thisArg : Value
  args : List Value

/-- `info.Env()`. -/
def CallbackInfo.Env (info : CallbackInfo) : Env := info.env

/-- `Napi::Boolean::New(env, b)`. -/
def Boolean.New {σ : Type} (_env : Env) (b : Bool) : M σ Value := pure (Value.boolean b)

/-- `Napi::String::New(env, s)`. -/
def String.New {σ : Type} (_env : Env) (s : String) : M σ Value := pure (Value.string s)

/-- `Napi::Number::New(env, n)`. -/
def Number.New {σ : Type} (_env : Env) (n : Int) : M σ Value := pure (Value.number n)

/-- `Napi::Function::New(env, cb)`. -/
def Function.New {σ : Type} (_env : Env) (cb : NativeFn) : M σ Value :=
  pure (Value.function cb)

/-- The object `{}`: extensible, without properties. -/
def Object.empty : Object := ⟨true, []⟩

/-- `Napi::Object::New(env)`: a fresh `{}`. -/
def Object.New {σ : Type} (_env : Env) : M σ Object := pure Object.empty

/-- The first property stored under `key` in a property list, if any. -/
def Object.lookupProps (key : String) :
    List (String × Property Value) → Option (Property Value)
  | [] => none
  | (k, p) :: rest => if k = key then some p else Object.lookupProps key rest

/-- The own property stored under `key`, if any. -/
def Object.getOwn (o : Object) (key : String) : Option (Property Value) :=
  Object.lookupProps key o.props

/-- The value of the own data property `key`, if there is one. -/
def Object.getProp (o : Object) (key : String) : Option Value :=
  match o.getOwn key with
  | some (Property.data v _) => some v
  | _ => none

/-- The setter a store under `key` would run: that of an own accessor property `key`. -/
def Object.setterAt (o : Object) (key : String) : Option Nat :=
  match o.getOwn key with
  | some (Property.accessor _ setter) => setter
  | _ => none

/-- The properties after a store under `key` that runs no setter: a writable data
property keeps its place and takes the new value; a read-only data property and an
accessor property stay as they are; a missing property is appended, writable, when the
object is extensible and not otherwise. -/
def Object.assignProps (extensible : Bool) (key : String) (v : Value) :
    List (String × Property Value) → List (String × Property Value)
  | [] => if extensible then [(key, Property.data v true)] else []
  | (k, p) :: rest =>
    if k = key then
      match p with
      | Property.data _ true => (k, Property.data v true) :: rest
      | _ => (k, p) :: rest
    else (k, p) :: Object.assignProps extensible key v rest

/-- The object after a store under `key` that runs no setter. -/
def Object.assign (o : Object) (key : String) (v : Value) : Object :=
  ⟨o.extensible, Object.assignProps o.extensible key v o.props⟩

/-- `obj.Set(key, value)`, the JavaScript store `obj[key] = value` made without the
strict-mode failure: the setter of an accessor property is called, and what it raises is
raised; every other store is `Object.assign`, which stores nothing, silently, where the
property is read-only or the object cannot be extended. Only own properties are
consulted: the object inherits no setter and no read-only property for the key. The
updated object is returned, as objects are values here. -/
def Object.Set {σ : Type} (o : Object) (key : String) (v : Value) : M σ Object :=
  match o.setterAt key with
  | some setter => fun host => ExceptT.mk (host.callSetter setter o v)
  | none => pure (o.assign key v)

/-- The own property names of an object, in order. -/
def Object.keys (o : Object) : List String := o.props.map Prod.fst

end Napi

namespace Accessibility

open Napi

/-- Source lines 6-10. -/
def CheckAccessibilityPermission {σ : Type} (info : CallbackInfo) : M σ Value := do
  let env := info.Env
  -- Return false for non-macOS platforms
  return (← Boolean.New env false)

/-- Source lines 12-16. -/
def RequestAccessibilityPermission {σ : Type} (info : CallbackInfo) : M σ Value := do
  let env := info.Env
  -- Return false for non-macOS platforms
  return (← Boolean.New env false)

/-- Source lines 18-22. -/
def SimulateKeyPress {σ : Type} (info : CallbackInfo) : M σ Value := do
  let env := info.Env
  -- Return false for non-macOS platforms
  return (← Boolean.New env false)

/-- Source lines 24-32. -/
def GetActiveAppInfo {σ : Type} (info : CallbackInfo) : M σ Value := do
  let env := info.Env
  -- Return empty object for non-macOS platforms
  let mut result ← Object.New env
  result ← result.Set "name" (← Napi.String.New env "")
  result ← result.Set "bundleId" (← Napi.String.New env "")
  result ← result.Set "pid" (← Number.New env 0)
  return Value.object result

/-- Source lines 34-44. -/
def Init {σ : Type} (env : Env) (exports : Object) : M σ Object := do
  let mut exports := exports
  exports ← exports.Set "checkAccessibilityPermission"
    (← Function.New env NativeFn.CheckAccessibilityPermission)
  exports ← exports.Set "requestAccessibilityPermission"
    (← Function.New env NativeFn.RequestAccessibilityPermission)
  exports ← exports.Set "simulateKeyPress"
    (← Function.New env NativeFn.SimulateKeyPress)
  exports ← exports.Set "getActiveAppInfo"
    (← Function.New env NativeFn.GetActiveAppInfo)
  return exports

/-- Calling a function value made by `Napi::Function::New` runs the callback it wraps. -/
def invoke {σ : Type} (fn : NativeFn) (info : CallbackInfo) : M σ Value :=
  match fn with
  | NativeFn.CheckAccessibilityPermission => CheckAccessibilityPermission info
  | NativeFn.RequestAccessibilityPermission => RequestAccessibilityPermission info
  | NativeFn.SimulateKeyPress => SimulateKeyPress info
  | NativeFn.GetActiveAppInfo => GetActiveAppInfo info

/-- One call made by the host: which operation, and the argument record it is given. -/
structure Call where
  fn : NativeFn
  info : CallbackInfo

/-- Runs a sequence of calls one after the other, each from the host state the previous
one left; collects the result of every call and the final host state. -/
def runCalls {σ : Type} (host : Host σ) : List Call → σ → List (Except Error Value) × σ
  | [], s => ([], s)
  | c :: rest, s =>
    let r := (invoke c.fn c.info).exec host s
    let rs := runCalls host rest r.2
    (r.1 :: rs.1, rs.2)

/-- The result of an operation called on its own: no arguments, trivial host state. -/
def soloResult (fn : NativeFn) : Except Error Value :=
  ((invoke fn ⟨⟨0⟩, Value.undefined, []⟩).exec Host.idle ()).1

/-- The names under which `Init` registers the callbacks. -/
def registeredNames : List String :=
  ["checkAccessibilityPermission", "requestAccessibilityPermission",
   "simulateKeyPress", "getActiveAppInfo"]

/-- The call sequence of the concrete scenario:
`[checkAccessibilityPermission(), getActiveAppInfo(), simulateKeyPress("A"),
requestAccessibilityPermission()]`. -/
def scenario (env : Env) : List Call :=
  [⟨NativeFn.CheckAccessibilityPermission, ⟨env, Value.undefined, []⟩⟩,
   ⟨NativeFn.GetActiveAppInfo, ⟨env, Value.undefined, []⟩⟩,
   ⟨NativeFn.SimulateKeyPress, ⟨env, Value.undefined, [Value.string "A"]⟩⟩,
   ⟨NativeFn.RequestAccessibilityPermission, ⟨env, Value.undefined, []⟩⟩]

/-- A frozen `{}`. -/
def frozenExports : Object := ⟨false, []⟩

/-- A non-extensible exports object that holds one of the four names. -/
def sealedExports : Object :=
  ⟨false, [("getActiveAppInfo", Property.data Value.null true)]⟩

/-- An exports object whose `simulateKeyPress` entry is an accessor with a setter. -/
def accessorExports : Object :=
  ⟨true, [("simulateKeyPress", Property.accessor none (some 0))]⟩

end Accessibility

/-! ## Properties of the property store -/

namespace Napi

end Napi

/-! ## Properties of the add-on -/

namespace Accessibility

open Napi

theorem invoke_exec {σ : Type} (host : Host σ) (fn : NativeFn) (info : CallbackInfo) (s : σ) :
    (invoke fn info).exec host s = (soloResult fn, s) := by
  cases fn <;> rfl

theorem runCalls_eq {σ : Type} (host : Host σ) (calls : List Call) (s : σ) :
    runCalls host calls s = (calls.map (fun c => soloResult c.fn), s) := by
  induction calls generalizing s with
  | nil => rfl
  | cons c rest ih => simp [runCalls, invoke_exec, ih]

/-- C1: for every argument record, every host and every host state, `getActiveAppInfo`
returns the record `{name: "", bundleId: "", pid: 0}`: exactly the three properties
`name`, `bundleId` and `pid`, the first two the empty string and the third the number
zero. -/
theorem GetActiveAppInfo_returns_default_record {σ : Type} (host : Host σ)
    (info : CallbackInfo) (s : σ) :
    ∃ result : Object,
      ((GetActiveAppInfo info).exec host s).1 = Except.ok (Value.object result) ∧
      result = ⟨true, [("name", Property.data (Value.string "") true),
                       ("bundleId", Property.data (Value.string "") true),
                       ("pid", Property.data (Value.number 0) true)]⟩ ∧
      result.keys = ["name", "bundleId", "pid"] ∧
      result.getProp "name" = some (Value.string "") ∧
      result.getProp "bundleId" = some (Value.string "") ∧
      result.getProp "pid" = some (Value.number 0) :=
  ⟨_, rfl, rfl, rfl, rfl, rfl, rfl⟩

/-- C2: for every argument list `simulateKeyPress` returns the boolean `false`, leaves the
host state as it found it (no input event is produced), and its outcome is the same for
every other argument record. -/
theorem SimulateKeyPress_returns_false {σ : Type} (host : Host σ) (info : CallbackInfo)
    (s : σ) :
    (SimulateKeyPress info).exec host s = (Except.ok (Value.boolean false), s) ∧
    ∀ info' : CallbackInfo,
      (SimulateKeyPress info').exec host s = (SimulateKeyPress info).exec host s :=
  ⟨rfl, fun _ => rfl⟩

/-- C3: for every argument record, every host and every host state,
`checkAccessibilityPermission` returns the boolean `false`. -/
theorem CheckAccessibilityPermission_returns_false {σ : Type} (host : Host σ)
    (info : CallbackInfo) (s : σ) :
    ((CheckAccessibilityPermission info).exec host s).1 = Except.ok (Value.boolean false) :=
  rfl

/-- C4: for every argument record `requestAccessibilityPermission` returns the boolean
`false`, and a `checkAccessibilityPermission` call made from the host state that any
number of requests left behind still returns `false`. -/
theorem RequestAccessibilityPermission_never_grants {σ : Type} (host : Host σ)
    (info : CallbackInfo) (s : σ) (requests : List CallbackInfo) (info' : CallbackInfo) :
    ((RequestAccessibilityPermission info).exec host s).1 =
      Except.ok (Value.boolean false) ∧
    (runCalls host (requests.map (Call.mk NativeFn.RequestAccessibilityPermission)) s).1 =
      List.replicate requests.length (Except.ok (Value.boolean false)) ∧
    ((CheckAccessibilityPermission info').exec host
        (runCalls host
          (requests.map (Call.mk NativeFn.RequestAccessibilityPermission)) s).2).1 =
      Except.ok (Value.boolean false) := by
  refine ⟨rfl, ?_, rfl⟩
  rw [runCalls_eq]
  induction requests with
  | nil => rfl
  | cons r rest ih =>
    simp only [List.map_cons, List.length_cons, List.replicate_succ] at ih ⊢
    rw [ih]
    rfl

/-- C5: `Init` applied to the empty exports object `{}` (what `Napi::Object::New` builds)
yields an object with exactly four entries, under the four distinct names
`checkAccessibilityPermission`, `requestAccessibilityPermission`, `simulateKeyPress` and
`getActiveAppInfo`; each name is bound to the function wrapping its own callback, and
invoking that function runs that callback. -/
theorem Init_registers_four {σ : Type} (host : Host σ) (env : Env) (s : σ) :
    ∃ exports : Object,
      (Object.New env).exec host s = (Except.ok Object.empty, s) ∧
      (Init env Object.empty).exec host s = (Except.ok exports, s) ∧
      exports =
        ⟨true,
         [("checkAccessibilityPermission",
            Property.data (Value.function NativeFn.CheckAccessibilityPermission) true),
          ("requestAccessibilityPermission",
            Property.data (Value.function NativeFn.RequestAccessibilityPermission) true),
          ("simulateKeyPress",
            Property.data (Value.function NativeFn.SimulateKeyPress) true),
          ("getActiveAppInfo",
            Property.data (Value.function NativeFn.GetActiveAppInfo) true)]⟩ ∧
      exports.props.length = 4 ∧
      exports.keys = registeredNames ∧
      exports.keys.Nodup ∧
      exports.getProp "checkAccessibilityPermission" =
        some (Value.function NativeFn.CheckAccessibilityPermission) ∧
      exports.getProp "requestAccessibilityPermission" =
        some (Value.function NativeFn.RequestAccessibilityPermission) ∧
      exports.getProp "simulateKeyPress" = some (Value.function NativeFn.SimulateKeyPress) ∧
      exports.getProp "getActiveAppInfo" = some (Value.function NativeFn.GetActiveAppInfo) ∧
      (∀ info : CallbackInfo,
        (invoke NativeFn.CheckAccessibilityPermission info : M σ Value) =
          CheckAccessibilityPermission info ∧
        (invoke NativeFn.RequestAccessibilityPermission info : M σ Value) =
          RequestAccessibilityPermission info ∧
        (invoke NativeFn.SimulateKeyPress info : M σ Value) = SimulateKeyPress info ∧
        (invoke NativeFn.GetActiveAppInfo info : M σ Value) = GetActiveAppInfo info) := by
  refine ⟨_, rfl, rfl, rfl, rfl, rfl, ?_, rfl, rfl, rfl, rfl, fun _ => ⟨rfl, rfl, rfl, rfl⟩⟩
  decide

/-- C6: in every finite sequence of calls, run in any host from any host state, the
result of each call is the result of its operation called on its own, whatever came
before it, wherever it stands and whatever its arguments; the scenario sequence yields
`[false, {name: "", bundleId: "", pid: 0}, false, false]`; and any selection of positions
of a sequence (a permutation, a repetition) yields the results at those positions. -/
theorem runCalls_results_depend_only_on_operation {σ : Type} (host : Host σ)
    (calls : List Call) (s : σ) (env : Env) (pick : List Nat) :
    runCalls host calls s = (calls.map (fun c => soloResult c.fn), s) ∧
    (runCalls host (scenario env) s).1 =
      [Except.ok (Value.boolean false),
       Except.ok (Value.object
         ⟨true, [("name", Property.data (Value.string "") true),
                 ("bundleId", Property.data (Value.string "") true),
                 ("pid", Property.data (Value.number 0) true)]⟩),
       Except.ok (Value.boolean false),
       Except.ok (Value.boolean false)] ∧
    (runCalls host (pick.filterMap (fun i => calls[i]?)) s).1 =
      pick.filterMap (fun i => (runCalls host calls s).1[i]?) := by
  refine ⟨runCalls_eq host calls s, rfl, ?_⟩
  rw [runCalls_eq, runCalls_eq]
  simp only [List.getElem?_map, List.map_filterMap]

/-- C7: none of the four operations signals an error: for every argument record, every
host and every host state each of them returns a value, never the error case; the three
boolean operations return the value `false` and `getActiveAppInfo` returns the default
record. -/
theorem operations_never_fail {σ : Type} (host : Host σ) (info : CallbackInfo) (s : σ) :
    (∃ v, ((CheckAccessibilityPermission info).exec host s).1 = Except.ok v ∧
      v = Value.boolean false) ∧
    (∃ v, ((RequestAccessibilityPermission info).exec host s).1 = Except.ok v ∧
      v = Value.boolean false) ∧
    (∃ v, ((SimulateKeyPress info).exec host s).1 = Except.ok v ∧
      v = Value.boolean false) ∧
    (∃ v, ((GetActiveAppInfo info).exec host s).1 = Except.ok v ∧
      v = Value.object
        ⟨true, [("name", Property.data (Value.string "") true),
                ("bundleId", Property.data (Value.string "") true),
                ("pid", Property.data (Value.number 0) true)]⟩) :=
  ⟨⟨_, rfl, rfl⟩, ⟨_, rfl, rfl⟩, ⟨_, rfl, rfl⟩, ⟨_, rfl, rfl⟩⟩

/-- C8: each of the four operations leaves the host state it is called in unchanged, for
every host, every state and every argument record, and returns the same result from every
other state: the state is neither read to decide the result nor written. -/
theorem operations_preserve_state {σ : Type} (host : Host σ) (info : CallbackInfo) (s : σ) :
    (((CheckAccessibilityPermission info).exec host s).2 = s ∧
      ∀ s' : σ, ((CheckAccessibilityPermission info).exec host s').1 =
        ((CheckAccessibilityPermission info).exec host s).1) ∧
    (((RequestAccessibilityPermission info).exec host s).2 = s ∧
      ∀ s' : σ, ((RequestAccessibilityPermission info).exec host s').1 =
        ((RequestAccessibilityPermission info).exec host s).1) ∧
    (((SimulateKeyPress info).exec host s).2 = s ∧
      ∀ s' : σ, ((SimulateKeyPress info).exec host s').1 =
        ((SimulateKeyPress info).exec host s).1) ∧
    (((GetActiveAppInfo info).exec host s).2 = s ∧
      ∀ s' : σ, ((GetActiveAppInfo info).exec host s').1 =
        ((GetActiveAppInfo info).exec host s).1) :=
  ⟨⟨rfl, fun _ => rfl⟩, ⟨rfl, fun _ => rfl⟩, ⟨rfl, fun _ => rfl⟩, ⟨rfl, fun _ => rfl⟩⟩

/-- On a frozen `{}`, `Init` returns normally and nothing is registered. -/
theorem Init_on_frozen_exports :
    (Init (⟨0⟩ : Env) frozenExports).exec Host.idle () = (Except.ok frozenExports, ()) :=
  rfl

/-- On a non-extensible object that holds `getActiveAppInfo`, `Init` rebinds that name and
the three other names are never added. -/
theorem Init_on_sealed_exports :
    (Init (⟨0⟩ : Env) sealedExports).exec Host.idle () =
      (Except.ok
        ⟨false, [("getActiveAppInfo",
          Property.data (Value.function NativeFn.GetActiveAppInfo) true)]⟩, ()) :=
  rfl

/-- When the setter of a `simulateKeyPress` accessor raises, `Init` raises. -/
theorem Init_on_raising_setter :
    ((Init (⟨0⟩ : Env) accessorExports).exec Host.raising ()).1 =
      Except.error (Error.jsException "setter") :=
  rfl

end Accessibility
